import Mathlib

set_option maxRecDepth 8192

/-!
Verification development for the OpsToolbox repository.

The repository holds three Python scripts:
* `src/aws/python/alb/getalblog.py` — pages through gzip-compressed ALB access
  log objects in S3, parses each line with one fixed regular expression,
  filters records against a high-water-mark timestamp and bulk-indexes the
  survivors into Elasticsearch;
* `src/aws/python/waf/copyipset.py` — copies one WAFv2 IpSet between
  regions/scopes under an optimistic-concurrency lock token;
* `src/aws/python/waf/copyallipset.py` — copies every IpSet of a scope.

This file shallowly embeds those scripts: the external services (S3,
Elasticsearch, WAFv2) are modelled as explicit state, Python exceptions as
`Except PyErr`, and `datetime` values as a seven-field record.  Definitions
follow the source line by line; theorems settle the specification claims.
-/

namespace OpsToolbox

/-- Python exceptions that the scripts can raise, plus errors raised by the
black-box services (boto3 / elasticsearch client). `serviceError` stands for a
network-level failure of a service call. -/
inductive PyErr where
  | attributeError
  | keyError
  | typeError
  | valueError
  | indexError
  | esRequestError
  | wafNonexistentItem
  | wafOptimisticLock
  | serviceError
deriving DecidableEq

/-- Model of a Python `datetime.datetime` value (naive, microsecond
resolution), as produced by `datetime.strptime`. -/
structure DateTime where
  year : Nat
  month : Nat
  day : Nat
  hour : Nat
  minute : Nat
  second : Nat
  microsecond : Nat
deriving DecidableEq

/-- Injective encoding of an in-range datetime into `Nat`; field bounds
(month ≤ 12 < 13, day ≤ 31 < 32, hour < 24, minute < 60, second < 60,
microsecond < 10^6) make this order-preserving for the lexicographic
comparison Python uses on `datetime` values. -/
def DateTime.key (t : DateTime) : Nat :=
  (((((t.year * 13 + t.month) * 32 + t.day) * 24 + t.hour) * 60 + t.minute) * 60
      + t.second) * 1000000 + t.microsecond

/-- Python `a < b` on two `datetime` values (lexicographic on the fields). -/
def dtLt (a b : DateTime) : Bool := a.key < b.key

/-! ### CPython `_strptime` model

`datetime.strptime` compiles the format into one regular expression
(`TimeRE`), takes the first (leftmost, alternatives in written order, greedy
quantifiers) match of that expression against a prefix of the input, raises
`ValueError` if no match exists or if unconverted data remains, and finally
builds the `datetime`, which validates calendar ranges.  The directive
patterns used below are CPython's: `%Y` = four digits, `%m` =
`1[0-2]|0[1-9]|[1-9]`, `%d` = `3[01]|[12]\d|0[1-9]|[1-9]`, `%H` =
`2[0-3]|[0-1]\d|\d`, `%M` = `[0-5]\d|\d`, `%S` = `6[0-1]|[0-5]\d|\d`, `%f` =
`[0-9]{1,6}` (right-padded with zeros to microseconds).  Candidate lists are
produced in the regex engine's backtracking priority order, so the head of
the final candidate list is exactly the match CPython commits to. -/

/-- Numeric value of a decimal digit character. -/
def dig (c : Char) : Nat := c.toNat - 48

/-- Is `c` a decimal digit? -/
def isDig (c : Char) : Bool := 48 ≤ c.toNat && c.toNat ≤ 57

/-- Is `c` a digit with value between `lo` and `hi`? -/
def digBetween (c : Char) (lo hi : Nat) : Bool :=
  isDig c && (lo ≤ dig c && dig c ≤ hi)

/-- Value of a list of digit characters read in base 10. -/
def digitsVal (l : List Char) : Nat := l.foldl (fun a c => a * 10 + dig c) 0

/-- `%Y`: exactly four digits. -/
def pYear : List Char → List (Nat × List Char)
  | a :: b :: c :: d :: r =>
    if isDig a && isDig b && isDig c && isDig d then
      [(digitsVal [a, b, c, d], r)]
    else []
  | _ => []

/-- `%m`: `1[0-2]|0[1-9]|[1-9]`, alternatives in priority order. -/
def pMonth (s : List Char) : List (Nat × List Char) :=
  (match s with
   | '1' :: c :: r => if digBetween c 0 2 then [(10 + dig c, r)] else []
   | _ => []) ++
  (match s with
   | '0' :: c :: r => if digBetween c 1 9 then [(dig c, r)] else []
   | _ => []) ++
  (match s with
   | c :: r => if digBetween c 1 9 then [(dig c, r)] else []
   | _ => [])

/-- `%d`: `3[01]|[12]\d|0[1-9]|[1-9]`, alternatives in priority order. -/
def pDay (s : List Char) : List (Nat × List Char) :=
  (match s with
   | '3' :: c :: r => if digBetween c 0 1 then [(30 + dig c, r)] else []
   | _ => []) ++
  (match s with
   | c :: c2 :: r =>
     if (c = '1' || c = '2') && isDig c2 then [(dig c * 10 + dig c2, r)] else []
   | _ => []) ++
  (match s with
   | '0' :: c :: r => if digBetween c 1 9 then [(dig c, r)] else []
   | _ => []) ++
  (match s with
   | c :: r => if digBetween c 1 9 then [(dig c, r)] else []
   | _ => [])

/-- `%H`: `2[0-3]|[0-1]\d|\d`, alternatives in priority order. -/
def pHour (s : List Char) : List (Nat × List Char) :=
  (match s with
   | '2' :: c :: r => if digBetween c 0 3 then [(20 + dig c, r)] else []
   | _ => []) ++
  (match s with
   | c :: c2 :: r =>
     if digBetween c 0 1 && isDig c2 then [(dig c * 10 + dig c2, r)] else []
   | _ => []) ++
  (match s with
   | c :: r => if isDig c then [(dig c, r)] else []
   | _ => [])

/-- `%M`: `[0-5]\d|\d`, alternatives in priority order. -/
def pMinute (s : List Char) : List (Nat × List Char) :=
  (match s with
   | c :: c2 :: r =>
     if digBetween c 0 5 && isDig c2 then [(dig c * 10 + dig c2, r)] else []
   | _ => []) ++
  (match s with
   | c :: r => if isDig c then [(dig c, r)] else []
   | _ => [])

/-- `%S`: `6[0-1]|[0-5]\d|\d`, alternatives in priority order. -/
def pSecond (s : List Char) : List (Nat × List Char) :=
  (match s with
   | '6' :: c :: r => if digBetween c 0 1 then [(60 + dig c, r)] else []
   | _ => []) ++
  (match s with
   | c :: c2 :: r =>
     if digBetween c 0 5 && isDig c2 then [(dig c * 10 + dig c2, r)] else []
   | _ => []) ++
  (match s with
   | c :: r => if isDig c then [(dig c, r)] else []
   | _ => [])

/-- `%f`: `[0-9]{1,6}` greedy, value right-padded with zeros to microseconds;
candidates from six digits down to one. -/
def pFrac (s : List Char) : List (Nat × List Char) :=
  let n := min (s.takeWhile isDig).length 6
  (List.range n).map (fun i =>
    let k := n - i
    (digitsVal (s.take k) * 10 ^ (6 - k), s.drop k))

/-- A literal character in the format string. -/
def pLit (c : Char) : List Char → List (List Char)
  | x :: r => if x = c then [r] else []
  | [] => []

/-- Validation performed by the `datetime` constructor once `strptime` has
matched: calendar ranges, including day-of-month against the actual month
length.  Out-of-range values raise `ValueError`. -/
def isLeapYear (y : Nat) : Bool := y % 4 = 0 && (y % 100 ≠ 0 || y % 400 = 0)

/-- Number of days in a month of a given year. -/
def daysInMonth (y mo : Nat) : Nat :=
  if mo = 2 then (if isLeapYear y then 29 else 28)
  else if mo = 4 ∨ mo = 6 ∨ mo = 9 ∨ mo = 11 then 30
  else 31

/-- The `datetime(...)` constructor: range validation then construction. -/
def mkDatetime (y mo d h mi se us : Nat) : Except PyErr DateTime :=
  if 1 ≤ y ∧ y ≤ 9999 ∧ 1 ≤ mo ∧ mo ≤ 12 ∧ 1 ≤ d ∧ d ≤ daysInMonth y mo ∧
      h ≤ 23 ∧ mi ≤ 59 ∧ se ≤ 59 ∧ us ≤ 999999 then
    .ok ⟨y, mo, d, h, mi, se, us⟩
  else .error .valueError

/-- All prefix matches, in backtracking priority order, of the compiled
pattern for `'%Y-%m-%dT%H:%M:%S.%fZ'`. -/
def fracZCandidates (s : List Char) :
    List ((Nat × Nat × Nat × Nat × Nat × Nat × Nat) × List Char) := do
  let (y, s) ← pYear s
  let s ← pLit '-' s
  let (mo, s) ← pMonth s
  let s ← pLit '-' s
  let (d, s) ← pDay s
  let s ← pLit 'T' s
  let (h, s) ← pHour s
  let s ← pLit ':' s
  let (mi, s) ← pMinute s
  let s ← pLit ':' s
  let (se, s) ← pSecond s
  let s ← pLit '.' s
  let (us, s) ← pFrac s
  let s ← pLit 'Z' s
  pure ((y, mo, d, h, mi, se, us), s)

/-- `datetime.strptime(s, '%Y-%m-%dT%H:%M:%S.%fZ')`: first match of the
compiled pattern; `ValueError` when there is no match, when unconverted data
remains after the committed match, or when the constructor rejects the
values. -/
def strptimeFracZ (s : String) : Except PyErr DateTime :=
  match fracZCandidates s.toList with
  | [] => .error .valueError
  | ((y, mo, d, h, mi, se, us), rest) :: _ =>
    if rest = [] then mkDatetime y mo d h mi se us else .error .valueError

/-- All prefix matches, in priority order, of the compiled pattern for
`'%Y-%m-%d'`. -/
def ymdCandidates (s : List Char) : List ((Nat × Nat × Nat) × List Char) := do
  let (y, s) ← pYear s
  let s ← pLit '-' s
  let (mo, s) ← pMonth s
  let s ← pLit '-' s
  let (d, s) ← pDay s
  pure ((y, mo, d), s)

/-- `datetime.strptime(s, '%Y-%m-%d')`. -/
def strptimeYmd (s : String) : Except PyErr DateTime :=
  match ymdCandidates s.toList with
  | [] => .error .valueError
  | ((y, mo, d), rest) :: _ =>
    if rest = [] then mkDatetime y mo d 0 0 0 0 else .error .valueError

/-- Zero-padded two-digit decimal rendering (`%m`, `%d`, `%H`, `%M`, `%S`). -/
def pad2 (n : Nat) : String := if n < 10 then "0" ++ toString n else toString n

/-- Four-digit zero-padded year rendering (`%Y`). -/
def pad4 (n : Nat) : String :=
  if n < 10 then "000" ++ toString n
  else if n < 100 then "00" ++ toString n
  else if n < 1000 then "0" ++ toString n
  else toString n

/-- `t.strftime('%Y-%m-%dT%H:%M:%SZ')` — whole-second rendering; the
microsecond field is not consulted at all. -/
def strftimeWholeZ (t : DateTime) : String :=
  pad4 t.year ++ "-" ++ pad2 t.month ++ "-" ++ pad2 t.day ++ "T" ++
    pad2 t.hour ++ ":" ++ pad2 t.minute ++ ":" ++ pad2 t.second ++ "Z"

/-- `t.strftime('%Y.%m.%d')` — used for dated index names. -/
def strftimeDateDots (t : DateTime) : String :=
  pad4 t.year ++ "." ++ pad2 t.month ++ "." ++ pad2 t.day

/-! ### The ALB log-line pattern of `parse_log_line`

`parse_log_line` (getalblog.py:40-82) matches each line against one fixed
regular expression with 33 capture groups.  The combinators below enumerate,
for each quantified subexpression, its candidate (capture, rest) splits in
exactly the backtracking priority order of the Python `re` engine: a greedy
quantifier offers the longest capture first, a lazy one the shortest, an
alternation its left branch first.  Sequencing candidates in the `List`
monad therefore reproduces the engine's depth-first search, and the head of
the final candidate list is the match `re.match` commits to. -/

/-- All splits (capture, rest) of a run of `p`-characters, shortest capture
first. -/
def splitsAsc (p : Char → Bool) : List Char → List (List Char × List Char)
  | [] => [([], [])]
  | c :: cs =>
    if p c then
      ([], c :: cs) :: (splitsAsc p cs).map (fun x => (c :: x.1, x.2))
    else [([], c :: cs)]

/-- Greedy `cls*`: longest capture first. -/
def greedySplits (p : Char → Bool) (s : List Char) :
    List (List Char × List Char) :=
  (splitsAsc p s).reverse

/-- Greedy `cls+`: longest capture first, at least one character. -/
def greedy1Splits (p : Char → Bool) (s : List Char) :
    List (List Char × List Char) :=
  ((splitsAsc p s).drop 1).reverse

/-- Lazy `cls+?`: shortest capture first, at least one character. -/
def lazy1Splits (p : Char → Bool) (s : List Char) :
    List (List Char × List Char) :=
  (splitsAsc p s).drop 1

/-- One character of a class (`[:-]` in the pattern). -/
def pCls (p : Char → Bool) : List Char → List (List Char)
  | x :: r => if p x then [r] else []
  | [] => []

/-- `[^ ]` — any character but a space. -/
def notSp (c : Char) : Bool := c ≠ ' '

/-- `[^"]` — any character but a double quote. -/
def notQuote (c : Char) : Bool := c ≠ '"'

/-- `.` — any character but a newline (no DOTALL flag). -/
def dotAny (c : Char) : Bool := c ≠ '\n'

/-- `[:-]`. -/
def clsColonDash (c : Char) : Bool := c = ':' || c = '-'

/-- `[-0-9]`. -/
def clsNumNeg (c : Char) : Bool := isDig c || c = '-'

/-- `[-.0-9]`. -/
def clsNumDotNeg (c : Char) : Bool := isDig c || c = '-' || c = '.'

/-- `[A-Z0-9-_]`. -/
def clsUpperNumDashUnd (c : Char) : Bool :=
  ('A' ≤ c && c ≤ 'Z') || isDig c || c = '-' || c = '_'

/-- `[A-Za-z0-9.-]`. -/
def clsAlnumDotDash (c : Char) : Bool :=
  ('A' ≤ c && c ≤ 'Z') || ('a' ≤ c && c ≤ 'z') || isDig c || c = '.' || c = '-'

/-- `[^\s]` — any character not in Python's `\s` class. -/
def notWs (c : Char) : Bool :=
  !(c = ' ' || c = '\t' || c = '\n' || c = '\r' || c = '\x0b' || c = '\x0c')

/-- Group 11, `(|[-0-9]*)`: the empty alternative first. -/
def g11Splits (s : List Char) : List (List Char × List Char) :=
  ([], s) :: greedySplits clsNumNeg s

/-- Group 12, `(-|[-0-9]*)`: the lone-dash alternative first. -/
def g12Splits (s : List Char) : List (List Char × List Char) :=
  (match s with
   | '-' :: r => [(['-'], r)]
   | _ => []) ++ greedySplits clsNumNeg s

/-- Group 17, `(- |[^ ]*)`: the literal dash-space alternative first. -/
def g17Splits (s : List Char) : List (List Char × List Char) :=
  (match s with
   | '-' :: ' ' :: r => [(['-', ' '], r)]
   | _ => []) ++ greedySplits notSp s

/-- One parsed ALB access-log line: the 33-field dict `parse_log_line`
builds from the pattern's capture groups, in the source's key order. -/
structure LogRecord where
  type : String
  timestamp : String
  elb : String
  client_ip : String
  client_port : String
  target_ip : String
  target_port : String
  request_processing_time : String
  target_processing_time : String
  response_processing_time : String
  elb_status_code : String
  target_status_code : String
  received_bytes : String
  sent_bytes : String
  request_verb : String
  request_url : String
  request_proto : String
  user_agent : String
  ssl_cipher : String
  ssl_protocol : String
  target_group_arn : String
  trace_id : String
  domain_name : String
  chosen_cert_arn : String
  matched_rule_priority : String
  request_creation_time : String
  actions_executed : String
  redirect_url : String
  lambda_error_reason : String
  target_port_list : String
  target_status_code_list : String
  classification : String
  classification_reason : String
deriving DecidableEq

/-- All anchored matches of the full ALB pattern, in backtracking priority
order; each one yields the record built from its 33 captures. -/
def albLineCandidates (s : List Char) : List LogRecord := do
  let (g1, s) ← greedySplits notSp s
  let s ← pLit ' ' s
  let (g2, s) ← greedySplits notSp s
  let s ← pLit ' ' s
  let (g3, s) ← greedySplits notSp s
  let s ← pLit ' ' s
  let (g4, s) ← greedySplits notSp s
  let s ← pLit ':' s
  let (g5, s) ← greedySplits isDig s
  let s ← pLit ' ' s
  let (g6, s) ← greedySplits notSp s
  let s ← pCls clsColonDash s
  let (g7, s) ← greedySplits isDig s
  let s ← pLit ' ' s
  let (g8, s) ← greedySplits clsNumDotNeg s
  let s ← pLit ' ' s
  let (g9, s) ← greedySplits clsNumDotNeg s
  let s ← pLit ' ' s
  let (g10, s) ← greedySplits clsNumDotNeg s
  let s ← pLit ' ' s
  let (g11, s) ← g11Splits s
  let s ← pLit ' ' s
  let (g12, s) ← g12Splits s
  let s ← pLit ' ' s
  let (g13, s) ← greedySplits clsNumNeg s
  let s ← pLit ' ' s
  let (g14, s) ← greedySplits clsNumNeg s
  let s ← pLit ' ' s
  let s ← pLit '"' s
  let (g15, s) ← greedySplits notSp s
  let s ← pLit ' ' s
  let (g16, s) ← greedySplits dotAny s
  let s ← pLit ' ' s
  let (g17, s) ← g17Splits s
  let s ← pLit '"' s
  let s ← pLit ' ' s
  let s ← pLit '"' s
  let (g18, s) ← greedySplits notQuote s
  let s ← pLit '"' s
  let s ← pLit ' ' s
  let (g19, s) ← greedy1Splits clsUpperNumDashUnd s
  let s ← pLit ' ' s
  let (g20, s) ← greedySplits clsAlnumDotDash s
  let s ← pLit ' ' s
  let (g21, s) ← greedySplits notSp s
  let s ← pLit ' ' s
  let s ← pLit '"' s
  let (g22, s) ← greedySplits notQuote s
  let s ← pLit '"' s
  let s ← pLit ' ' s
  let s ← pLit '"' s
  let (g23, s) ← greedySplits notQuote s
  let s ← pLit '"' s
  let s ← pLit ' ' s
  let s ← pLit '"' s
  let (g24, s) ← greedySplits notQuote s
  let s ← pLit '"' s
  let s ← pLit ' ' s
  let (g25, s) ← greedySplits clsNumDotNeg s
  let s ← pLit ' ' s
  let (g26, s) ← greedySplits notSp s
  let s ← pLit ' ' s
  let s ← pLit '"' s
  let (g27, s) ← greedySplits notQuote s
  let s ← pLit '"' s
  let s ← pLit ' ' s
  let s ← pLit '"' s
  let (g28, s) ← greedySplits notQuote s
  let s ← pLit '"' s
  let s ← pLit ' ' s
  let s ← pLit '"' s
  let (g29, s) ← greedySplits notSp s
  let s ← pLit '"' s
  let s ← pLit ' ' s
  let s ← pLit '"' s
  let (g30, s) ← lazy1Splits notWs s
  let s ← pLit '"' s
  let s ← pLit ' ' s
  let s ← pLit '"' s
  let (g31, s) ← greedy1Splits notWs s
  let s ← pLit '"' s
  let s ← pLit ' ' s
  let s ← pLit '"' s
  let (g32, s) ← greedySplits notSp s
  let s ← pLit '"' s
  let s ← pLit ' ' s
  let s ← pLit '"' s
  let (g33, s) ← greedySplits notSp s
  let _ ← pLit '"' s
  pure {
    type := String.mk g1
    timestamp := String.mk g2
    elb := String.mk g3
    client_ip := String.mk g4
    client_port := String.mk g5
    target_ip := String.mk g6
    target_port := String.mk g7
    request_processing_time := String.mk g8
    target_processing_time := String.mk g9
    response_processing_time := String.mk g10
    elb_status_code := String.mk g11
    target_status_code := String.mk g12
    received_bytes := String.mk g13
    sent_bytes := String.mk g14
    request_verb := String.mk g15
    request_url := String.mk g16
    request_proto := String.mk g17
    user_agent := String.mk g18
    ssl_cipher := String.mk g19
    ssl_protocol := String.mk g20
    target_group_arn := String.mk g21
    trace_id := String.mk g22
    domain_name := String.mk g23
    chosen_cert_arn := String.mk g24
    matched_rule_priority := String.mk g25
    request_creation_time := String.mk g26
    actions_executed := String.mk g27
    redirect_url := String.mk g28
    lambda_error_reason := String.mk g29
    target_port_list := String.mk g30
    target_status_code_list := String.mk g31
    classification := String.mk g32
    classification_reason := String.mk g33 }

/-- `parse_log_line(line)` (getalblog.py:40-82): `pattern.match(line)` is
anchored at the start of the line and may leave a suffix unconsumed; on a
match the 33-field dict is returned, otherwise `None`. -/
def parse_log_line (line : String) : Option LogRecord :=
  (albLineCandidates line.toList).head?

/-! ### The object store and search index

`get_alb_logs` touches one S3 bucket (read-only) and one Elasticsearch
cluster.  The bucket is a list of objects; an object carries its key, its
`LastModified` stamp (abstract but comparable) and the decompressed
newline-delimited content as the list of lines the gzip iteration yields.
Host and credential arguments only configure the network clients and are
omitted.  Documents are flat string-to-string JSON objects, the shape this
pipeline writes. -/

/-- One S3 object. -/
structure S3Object where
  key : String
  lastModified : Nat
  lines : List String
deriving DecidableEq

/-- Python `str.startswith`. -/
def strStartsWith (s p : String) : Bool := p.toList.isPrefixOf s.toList

/-- Python `str.split(sep)` for a one-character separator. -/
def splitOnChar (c : Char) : List Char → List (List Char)
  | [] => [[]]
  | x :: xs =>
    if x = c then [] :: splitOnChar c xs
    else
      match splitOnChar c xs with
      | [] => [[x]]
      | h :: t => (x :: h) :: t

/-- `key.split('/')`. -/
def pySplit (c : Char) (s : String) : List String :=
  (splitOnChar c s.toList).map String.mk

/-- Stable insertion step for the `objects.sort(key=LastModified)` call. -/
def insertByLm (o : S3Object) : List S3Object → List S3Object
  | [] => [o]
  | x :: xs =>
    if o.lastModified ≤ x.lastModified then o :: x :: xs
    else x :: insertByLm o xs

/-- `objects.sort(key=lambda x: x['LastModified'])` — Python's sort is
stable and ascending. -/
def sortByLm (l : List S3Object) : List S3Object := l.foldr insertByLm []

/-- `list_objects_v2(Bucket, Prefix)`, and the paginated variant flattened:
every object whose key starts with the prefix, in the service's listing
order (kept as the state's order). -/
def s3ListObjects (s3 : List S3Object) (p : String) : List S3Object :=
  s3.filter (fun o => strStartsWith o.key p)

/-- `get_earliest_alb_log_date(bucket_name, prefix)` (getalblog.py:96-135):
list the objects under the prefix, sort by LastModified, take the first,
read slash-separated key components 5, 6 and 7 as year, month and day
(`IndexError` when the key is too short) and parse them with `'%Y-%m-%d'`;
`None` when nothing is listed. -/
def get_earliest_alb_log_date (s3 : List S3Object) (p : String) :
    Except PyErr (Option DateTime) :=
  match (sortByLm (s3ListObjects s3 p)).head? with
  | none => .ok none
  | some o =>
    let parts := pySplit '/' o.key
    match parts.get? 5, parts.get? 6, parts.get? 7 with
    | some yy, some mm, some dd =>
      match strptimeYmd (yy ++ "-" ++ mm ++ "-" ++ dd) with
      | .error e => .error e
      | .ok d => .ok (some d)
    | _, _, _ => .error .indexError

/-- A stored document: a flat JSON object of string fields. -/
abbrev Doc := List (String × String)

/-- One Elasticsearch index. -/
structure EsIndexEntry where
  name : String
  docs : List Doc
deriving DecidableEq

/-- One `helpers.bulk` action `{'_index': i, '_source': r}`. -/
abbrev Action := String × LogRecord

/-- The Elasticsearch cluster state together with the bulk calls performed
so far (each `helpers.bulk` invocation's action list, in order). -/
structure EsWorld where
  es : List EsIndexEntry
  bulks : List (List Action)
deriving DecidableEq

/-- The `_source` dict of an action as the stored document, fields in the
source's key order. -/
def LogRecord.toDoc (r : LogRecord) : Doc :=
  [("type", r.type), ("timestamp", r.timestamp), ("elb", r.elb),
   ("client_ip", r.client_ip), ("client_port", r.client_port),
   ("target_ip", r.target_ip), ("target_port", r.target_port),
   ("request_processing_time", r.request_processing_time),
   ("target_processing_time", r.target_processing_time),
   ("response_processing_time", r.response_processing_time),
   ("elb_status_code", r.elb_status_code),
   ("target_status_code", r.target_status_code),
   ("received_bytes", r.received_bytes), ("sent_bytes", r.sent_bytes),
   ("request_verb", r.request_verb), ("request_url", r.request_url),
   ("request_proto", r.request_proto), ("user_agent", r.user_agent),
   ("ssl_cipher", r.ssl_cipher), ("ssl_protocol", r.ssl_protocol),
   ("target_group_arn", r.target_group_arn), ("trace_id", r.trace_id),
   ("domain_name", r.domain_name), ("chosen_cert_arn", r.chosen_cert_arn),
   ("matched_rule_priority", r.matched_rule_priority),
   ("request_creation_time", r.request_creation_time),
   ("actions_executed", r.actions_executed),
   ("redirect_url", r.redirect_url),
   ("lambda_error_reason", r.lambda_error_reason),
   ("target_port_list", r.target_port_list),
   ("target_status_code_list", r.target_status_code_list),
   ("classification", r.classification),
   ("classification_reason", r.classification_reason)]

/-- A doc's timestamp field for sorting (ISO-formatted strings order as
dates). -/
def docTs (d : Doc) : String :=
  ((d.find? (fun kv => kv.1 = "timestamp")).map (fun kv => kv.2)).getD ""

/-- `es.search(index=i, size=1, sort=[{"timestamp": {"order": "desc"}}],
_source=["timestamp"])`: fails when the index does not exist; otherwise
returns the document with the greatest timestamp (none when the index is
empty), its `_source` filtered to the requested field. -/
def esSearchTopTs (es : List EsIndexEntry) (index : String) :
    Except PyErr (Option Doc) :=
  match es.find? (fun e => e.name = index) with
  | none => .error .esRequestError
  | some e =>
    .ok ((e.docs.foldl (fun best d =>
        match best with
        | none => some d
        | some b => if docTs b < docTs d then some d else some b) none).map
      (fun d => d.filter (fun kv => kv.1 = "timestamp")))

/-- `get_last_log_time(es, es_index)` (getalblog.py:139-153): search for the
single most recent document, then read
`result['hits']['hits'][0]['_source']['log']['timestamp']`.  The `_source`
was filtered to `["timestamp"]`, so looking up `'log'` raises `KeyError` on
the flat documents this pipeline writes (and a string value under `'log'`
would make the second subscript raise `TypeError`); the bare `except`
swallows every failure — including a failed search — prints a message and
the function returns `None`. -/
def get_last_log_time (es : List EsIndexEntry) (index : String) :
    Option DateTime :=
  match esSearchTopTs es index with
  | .error _ => none
  | .ok none => none
  | .ok (some d) =>
    match d.find? (fun kv => kv.1 = "log") with
    | none => none
    | some _ => none

/-- `create_index_with_date(es, base_index_name)` (getalblog.py:84-95):
append the current date to the name and create that index; the client
raises when it already exists. -/
def create_index_with_date (now : DateTime) (baseIndexName : String)
    (es : List EsIndexEntry) : Except PyErr (List EsIndexEntry) :=
  let indexName := baseIndexName ++ "-" ++ strftimeDateDots now
  if es.any (fun e => e.name = indexName) then .error .esRequestError
  else .ok (es ++ [⟨indexName, []⟩])

/-- One document insert of `helpers.bulk`: append to the target index,
auto-creating it when absent. -/
def esBulkInsert (es : List EsIndexEntry) (a : Action) : List EsIndexEntry :=
  if es.any (fun e => e.name = a.1) then
    es.map (fun e => if e.name = a.1 then ⟨e.name, e.docs ++ [a.2.toDoc]⟩ else e)
  else es ++ [⟨a.1, [a.2.toDoc]⟩]

/-- `helpers.bulk(es, actions)`. -/
def esBulk (es : List EsIndexEntry) (actions : List Action) :
    List EsIndexEntry :=
  actions.foldl esBulkInsert es

/-! ### `get_alb_logs` -/

/-- The body of the per-line loop of `get_alb_logs` (getalblog.py:205-220):
parse the line; on a match parse its timestamp with
`'%Y-%m-%dT%H:%M:%S.%fZ'` (a failure propagates and aborts the run),
rewrite the record's timestamp to `'%Y-%m-%dT%H:%M:%SZ'`, and keep the
adjusted record when `not last_log_time or original_timestamp >
last_log_time`. -/
def keepLine (lastLogTime : Option DateTime) (line : String) :
    Except PyErr (Option LogRecord) :=
  match parse_log_line line with
  | none => .ok none
  | some r =>
    match strptimeFracZ r.timestamp with
    | .error e => .error e
    | .ok t =>
      if (match lastLogTime with
          | none => true
          | some h => dtLt h t) then
        .ok (some { r with timestamp := strftimeWholeZ t })
      else .ok none

/-- The `actions` accumulation loop of `get_alb_logs` over the decompressed
lines of the enumerated objects. -/
def buildActionsGo (esIndex : String) (lastLogTime : Option DateTime) :
    List String → List Action → Except PyErr (List Action)
  | [], acc => .ok acc
  | l :: ls, acc =>
    match keepLine lastLogTime l with
    | .error e => .error e
    | .ok none => buildActionsGo esIndex lastLogTime ls acc
    | .ok (some r) => buildActionsGo esIndex lastLogTime ls (acc ++ [(esIndex, r)])

/-- The full `actions` list accumulated from a list of lines. -/
def buildActions (esIndex : String) (lastLogTime : Option DateTime)
    (lines : List String) : Except PyErr (List Action) :=
  buildActionsGo esIndex lastLogTime lines []

/-- The S3 prefix `get_alb_logs` enumerates (getalblog.py:185-188), built
from the year and zero-padded month of `last_log_time` (the local variables
are named `current_year` / `current_month` but are assigned from
`last_log_time`, not from the wall clock). -/
def monthPrefixOf (basePre logPathPre : String) (t : DateTime) : String :=
  basePre ++ "/" ++ logPathPre ++ "/" ++ toString t.year ++ "/" ++
    pad2 t.month ++ "/"

/-- The decompressed lines of every object under a prefix, in listing
order. -/
def monthLines (s3 : List S3Object) (p : String) : List String :=
  ((s3ListObjects s3 p).map (fun o => o.lines)).flatten

/-- Lines 164-183 of `get_alb_logs`: the value left in `last_log_time`
after the branch, together with the Elasticsearch state (the no-index
branch may create a dated index).  `.ok none` models the branch falling
through with `last_log_time = None`. -/
def determineLastLogTime (now : DateTime) (s3 : List S3Object)
    (basePre logPathPre esIndex : String) (es : List EsIndexEntry) :
    Except PyErr (Option DateTime) × List EsIndexEntry :=
  let existing := (es.map (fun e => e.name)).filter
      (fun n => strStartsWith n esIndex)
  match existing with
  | _ :: _ => (.ok (get_last_log_time es (existing.getLastD "")), es)
  | [] =>
    match get_earliest_alb_log_date s3 (basePre ++ "/" ++ logPathPre ++ "/") with
    | .error e => (.error e, es)
    | .ok none => (.ok none, es)
    | .ok (some d) =>
      let indexName := esIndex ++ "-" ++ strftimeDateDots d
      match create_index_with_date now indexName es with
      | .error e => (.error e, es)
      | .ok es2 => (.ok (some d), es2)

/-- `get_alb_logs` (getalblog.py:157-226).  The returned `Option Nat` is
the Python return value: the function body has no return statement, so
every completed run returns `None`.  Reading `last_log_time.year` with
`last_log_time = None` raises `AttributeError`. -/
def get_alb_logs (now : DateTime) (s3 : List S3Object)
    (basePre logPathPre esIndex : String) (w : EsWorld) :
    Except PyErr (Option Nat) × EsWorld :=
  match determineLastLogTime now s3 basePre logPathPre esIndex w.es with
  | (.error e, es2) => (.error e, { w with es := es2 })
  | (.ok none, es2) => (.error .attributeError, { w with es := es2 })
  | (.ok (some llt), es2) =>
    match buildActions esIndex (some llt)
        (monthLines s3 (monthPrefixOf basePre logPathPre llt)) with
    | .error e => (.error e, { w with es := es2 })
    | .ok actions =>
      if actions.isEmpty then (.ok none, { w with es := es2 })
      else (.ok none, { es := esBulk es2 actions, bulks := w.bulks ++ [actions] })

/-! ### The WAFv2 rule-set service

The two copy scripts drive the WAFv2 API.  The model keeps, per
(region, scope), the stored IpSets, plus fresh-id and fresh-token counters.
Every API call is appended to an event log (so theorems can talk about
which requests a run makes and with which arguments) and consumes one entry
of a fault schedule: a `true` entry makes the black-box service fail that
call with a network-level error, which the scripts do not catch. -/

/-- One WAFv2 IpSet (summary and detail merged: `list_ip_sets` yields
Name/Id, `get_ip_set` additionally Addresses, IPAddressVersion and the
current LockToken). -/
structure IPSet where
  name : String
  id : String
  addresses : List String
  ipAddressVersion : String
  lockToken : Nat
  description : String
deriving DecidableEq

/-- An observable WAFv2 API call. -/
inductive WafEv where
  | list (region scope : String)
  | get (region scope name id : String)
  | create (region scope name : String)
  | update (region scope name id : String) (token : Nat)
deriving DecidableEq

/-- The WAFv2 service state. -/
structure WafWorld where
  table : List ((String × String) × List IPSet)
  nextId : Nat
  nextTok : Nat
  faults : List Bool
  events : List WafEv
deriving DecidableEq

/-- The sets stored under a (region, scope). -/
def scopeSets (w : WafWorld) (region scope : String) : List IPSet :=
  ((w.table.find? (fun e => e.1 = (region, scope))).map (fun e => e.2)).getD []

/-- Replace the sets stored under a (region, scope). -/
def setScopeSets (w : WafWorld) (region scope : String) (sets : List IPSet) :
    WafWorld :=
  if w.table.any (fun e => e.1 = (region, scope)) then
    { w with table := (w.table.map
        (fun e => if e.1 = (region, scope) then (e.1, sets) else e)) }
  else { w with table := w.table ++ [((region, scope), sets)] }

/-- Record an API call and consume one entry of the fault schedule. -/
def wafCall (w : WafWorld) (ev : WafEv) : Bool × WafWorld :=
  match w.faults with
  | [] => (false, { w with events := w.events ++ [ev] })
  | b :: rest => (b, { w with events := w.events ++ [ev], faults := rest })

/-- `client.list_ip_sets(Scope=scope)`. -/
def wafListIpSets (region scope : String) (w : WafWorld) :
    Except PyErr (List IPSet) × WafWorld :=
  match wafCall w (.list region scope) with
  | (true, w) => (.error .serviceError, w)
  | (false, w) => (.ok (scopeSets w region scope), w)

/-- `client.get_ip_set(Name=name, Id=id, Scope=scope)`: the set with that
id and name in the scope, or WAFNonexistentItemException. -/
def wafGetIpSet (region scope name id : String) (w : WafWorld) :
    Except PyErr IPSet × WafWorld :=
  match wafCall w (.get region scope name id) with
  | (true, w) => (.error .serviceError, w)
  | (false, w) =>
    match (scopeSets w region scope).find?
        (fun st => st.id = id && st.name = name) with
    | none => (.error .wafNonexistentItem, w)
    | some st => (.ok st, w)

/-- `client.create_ip_set(...)`: store a new set with a fresh id and a
fresh lock token; returns the created summary's Id. -/
def wafCreateIpSet (region scope name version : String)
    (addresses : List String) (description : String) (w : WafWorld) :
    Except PyErr String × WafWorld :=
  match wafCall w (.create region scope name) with
  | (true, w) => (.error .serviceError, w)
  | (false, w) =>
    let newId := "id-" ++ toString w.nextId
    let st : IPSet := ⟨name, newId, addresses, version, w.nextTok, description⟩
    let w2 := setScopeSets w region scope (scopeSets w region scope ++ [st])
    (.ok newId, { w2 with nextId := w.nextId + 1, nextTok := w.nextTok + 1 })

/-- `client.update_ip_set(...)`: requires the current lock token; replaces
the address list and invalidates the token. -/
def wafUpdateIpSet (region scope name id : String) (addresses : List String)
    (token : Nat) (w : WafWorld) : Except PyErr Unit × WafWorld :=
  match wafCall w (.update region scope name id token) with
  | (true, w) => (.error .serviceError, w)
  | (false, w) =>
    match (scopeSets w region scope).find?
        (fun st => st.id = id && st.name = name) with
    | none => (.error .wafNonexistentItem, w)
    | some st =>
      if st.lockToken = token then
        let w2 := setScopeSets w region scope ((scopeSets w region scope).map
          (fun st2 => if st2.id = id then
              { st2 with addresses := addresses, lockToken := w.nextTok }
            else st2))
        (.ok (), { w2 with nextTok := w.nextTok + 1 })
      else (.error .wafOptimisticLock, w)

/-- The source-resolution idiom shared by copyipset.py:10-23 and
copyallipset.py:16-22: scan the scope's listed summaries for the first set
whose Name equals the requested name (Python `==` on strings: exact and
case-sensitive), then read that set's detail; empty when no name matches. -/
def findByName (sets : List IPSet) (n : String) :
    Option (String × List String × String) :=
  match sets.find? (fun st => st.name = n) with
  | none => none
  | some st => some (st.id, st.addresses, st.ipAddressVersion)

/-- `copy_ip_set(sr, dr, sn, dn, ss, ds)` (copyipset.py:4-57).  A missing
source set prints a message and returns normally.  Note copyipset.py:45:
the lock-token read passes the literal scope `'REGIONAL'` instead of `ds`. -/
def copy_ip_set (sr dr sn dn ss ds : String) (w : WafWorld) :
    Except PyErr Unit × WafWorld :=
  match wafListIpSets sr ss w with
  | (.error e, w) => (.error e, w)
  | (.ok summaries, w) =>
    match summaries.find? (fun st => st.name = sn) with
    | none => (.ok (), w)
    | some src =>
      match wafGetIpSet sr ss sn src.id w with
      | (.error e, w) => (.error e, w)
      | (.ok details, w) =>
        match wafListIpSets dr ds w with
        | (.error e, w) => (.error e, w)
        | (.ok dsummaries, w) =>
          let step : Except PyErr String × WafWorld :=
            match dsummaries.find? (fun st => st.name = dn) with
            | some d => (.ok d.id, w)
            | none =>
              wafCreateIpSet dr ds dn details.ipAddressVersion []
                ("copy from  " ++ sn) w
          match step with
          | (.error e, w) => (.error e, w)
          | (.ok destId, w) =>
            match wafGetIpSet dr "REGIONAL" dn destId w with
            | (.error e, w) => (.error e, w)
            | (.ok resp, w) =>
              match wafUpdateIpSet dr ds dn destId details.addresses
                  resp.lockToken w with
              | (.error e, w) => (.error e, w)
              | (.ok _, w) => (.ok (), w)

/-- The loop body of `copy_all_ip_sets` for one source summary
(copyallipset.py:12-46): read the source detail, re-list the destination
scope, then update the existing destination set under a freshly read token
or create it (directly with the source addresses) when absent. -/
def processSourceSet (sourceRegion destRegion sourceScope destScope : String)
    (s : IPSet) (w : WafWorld) : Except PyErr Unit × WafWorld :=
  match wafGetIpSet sourceRegion sourceScope s.name s.id w with
  | (.error e, w) => (.error e, w)
  | (.ok details, w) =>
    match wafListIpSets destRegion destScope w with
    | (.error e, w) => (.error e, w)
    | (.ok dsummaries, w) =>
      match dsummaries.find? (fun st => st.name = s.name) with
      | some d =>
        match wafGetIpSet destRegion destScope s.name d.id w with
        | (.error e, w) => (.error e, w)
        | (.ok resp, w) =>
          match wafUpdateIpSet destRegion destScope s.name d.id
              details.addresses resp.lockToken w with
          | (.error e, w) => (.error e, w)
          | (.ok _, w) => (.ok (), w)
      | none =>
        match wafCreateIpSet destRegion destScope s.name
            details.ipAddressVersion details.addresses
            ("Copied from " ++ sourceRegion) w with
        | (.error e, w) => (.error e, w)
        | (.ok _, w) => (.ok (), w)

/-- The `for` loop of `copy_all_ip_sets`: there is no exception handling
around the body, so the first failure propagates out of the loop. -/
def copyAllLoop (sourceRegion destRegion sourceScope destScope : String) :
    List IPSet → WafWorld → Except PyErr Unit × WafWorld
  | [], w => (.ok (), w)
  | s :: rest, w =>
    match processSourceSet sourceRegion destRegion sourceScope destScope s w with
    | (.error e, w) => (.error e, w)
    | (.ok _, w) => copyAllLoop sourceRegion destRegion sourceScope destScope rest w

/-- `copy_all_ip_sets(source_region, destination_region, source_scope,
destination_scope)` (copyallipset.py:4-46). -/
def copy_all_ip_sets (sourceRegion destRegion sourceScope destScope : String)
    (w : WafWorld) : Except PyErr Unit × WafWorld :=
  match wafListIpSets sourceRegion sourceScope w with
  | (.error e, w) => (.error e, w)
  | (.ok sets, w) => copyAllLoop sourceRegion destRegion sourceScope destScope sets w

/-! ### Helper lemmas -/

/-- The accumulator of the `actions` loop only ever grows by appending: the
run on any accumulator is the run on the empty accumulator, prefixed. -/
theorem buildActionsGo_append (i : String) (h : Option DateTime) :
    ∀ (ls : List String) (acc : List Action),
      buildActionsGo i h ls acc =
        Except.map (fun K => acc ++ K) (buildActionsGo i h ls []) := by
  intro ls
  induction ls with
  | nil => intro acc; simp [buildActionsGo, Except.map]
  | cons l ls ih =>
    intro acc
    cases hk : keepLine h l with
    | error e => simp [buildActionsGo, hk, Except.map]
    | ok o =>
      cases o with
      | none => simp [buildActionsGo, hk, ih acc]
      | some r =>
        simp only [buildActionsGo, hk, List.nil_append]
        rw [ih (acc ++ [(i, r)]), ih [(i, r)]]
        cases hgo : buildActionsGo i h ls [] with
        | error e => simp [Except.map]
        | ok K => simp [Except.map]

/-- Membership in the accumulated `actions` list: an action is in the batch
exactly when some input line survives the keep step with its record. -/
theorem mem_buildActions (i : String) (h : Option DateTime) :
    ∀ (ls : List String) (B : List Action), buildActions i h ls = .ok B →
      ∀ a : Action, a ∈ B ↔ ∃ l ∈ ls, keepLine h l = .ok (some a.2) ∧ a.1 = i := by
  intro ls
  induction ls with
  | nil =>
    intro B hB a
    simp only [buildActions, buildActionsGo] at hB
    cases hB
    simp
  | cons l ls ih =>
    intro B hB a
    cases hk : keepLine h l with
    | error e => simp [buildActions, buildActionsGo, hk] at hB
    | ok o =>
      cases o with
      | none =>
        simp only [buildActions, buildActionsGo, hk] at hB
        rw [ih B hB a]
        constructor
        · rintro ⟨l', hl', hkeep, hi⟩
          exact ⟨l', by simp [hl'], hkeep, hi⟩
        · rintro ⟨l', hl', hkeep, hi⟩
          rcases List.mem_cons.mp hl' with rfl | hmem
          · rw [hk] at hkeep; cases hkeep
          · exact ⟨l', hmem, hkeep, hi⟩
      | some r =>
        simp only [buildActions, buildActionsGo, hk] at hB
        rw [buildActionsGo_append] at hB
        cases hgo : buildActionsGo i h ls [] with
        | error e => rw [hgo] at hB; cases hB
        | ok K =>
          rw [hgo] at hB
          simp only [Except.map] at hB
          cases hB
          have hK := ih K hgo
          constructor
          · intro hmem
            rcases List.mem_append.mp hmem with hhd | htl
            · rcases List.mem_singleton.mp hhd with rfl
              exact ⟨l, by simp, by rw [hk], rfl⟩
            · rcases (hK a).mp htl with ⟨l', hl', hkeep, hi⟩
              exact ⟨l', by simp [hl'], hkeep, hi⟩
          · rintro ⟨l', hl', hkeep, hi⟩
            rcases List.mem_cons.mp hl' with rfl | hmem
            · rw [hk] at hkeep
              cases hkeep
              rcases a with ⟨a1, a2⟩
              cases hi
              simp
            · exact List.mem_append.mpr (.inr ((hK a).mpr ⟨l', hmem, hkeep, hi⟩))

/-- Characterization of a surviving line: `keepLine` yields a record exactly
when the line parses, its timestamp parses with the fractional format, the
high-water-mark comparison (on the fractional value) passes, and the record
is the parsed one with the timestamp rewritten to whole seconds. -/
theorem keepLine_ok_some (h : Option DateTime) (l : String) (r' : LogRecord) :
    keepLine h l = .ok (some r') ↔
      ∃ r t, parse_log_line l = some r ∧ strptimeFracZ r.timestamp = .ok t ∧
        (match h with
         | none => True
         | some hw => dtLt hw t = true) ∧
        r' = { r with timestamp := strftimeWholeZ t } := by
  unfold keepLine
  cases hp : parse_log_line l with
  | none =>
    simp
  | some r =>
    cases hf : strptimeFracZ r.timestamp with
    | error e => simp [hf]
    | ok t =>
      cases h with
      | none =>
        simp only [hf]
        constructor
        · intro hh
          cases hh
          exact ⟨r, t, rfl, hf, trivial, rfl⟩
        · rintro ⟨r0, t0, hr0, ht0, _, rfl⟩
          cases hr0
          rw [hf] at ht0
          cases ht0
          rfl
      | some hw =>
        by_cases hlt : dtLt hw t = true
        · simp only [hf, hlt, if_pos]
          constructor
          · intro hh
            cases hh
            exact ⟨r, t, rfl, hf, hlt, rfl⟩
          · rintro ⟨r0, t0, hr0, ht0, _, rfl⟩
            cases hr0
            rw [hf] at ht0
            cases ht0
            rfl
        · rw [Bool.not_eq_true] at hlt
          simp only [hf, hlt]
          constructor
          · intro hh; cases hh
          · rintro ⟨r0, t0, hr0, ht0, hcmp, rfl⟩
            cases hr0
            rw [hf] at ht0
            cases ht0
            rw [hlt] at hcmp
            cases hcmp

/-! ### Concrete data for the closed theorems and witnesses -/

/-- The wall-clock instant of the concrete runs below: 2024-05-20. -/
def nowW : DateTime := ⟨2024, 5, 20, 0, 0, 0, 0⟩

/-- A minimal line matching the ALB grammar, timestamp
`2020-01-02T03:04:05.6Z`. -/
def lineW : String :=
  "h 2020-01-02T03:04:05.6Z e a:1 b:2 0 0 0 2 2 3 4 \"G u H\" \"U\" A p t \"T\" \"d\" \"c\" 1 r \"a\" \"l\" \"o\" \"q\" \"s\" \"x\" \"y\""

/-- The same line shape with timestamp `2023-03-20T00:00:00.5Z`. -/
def lineB : String :=
  "h 2023-03-20T00:00:00.5Z e a:1 b:2 0 0 0 2 2 3 4 \"G u H\" \"U\" A p t \"T\" \"d\" \"c\" 1 r \"a\" \"l\" \"o\" \"q\" \"s\" \"x\" \"y\""

/-- The same line shape with timestamp `2024-05-21T00:00:00.5Z`. -/
def lineC : String :=
  "h 2024-05-21T00:00:00.5Z e a:1 b:2 0 0 0 2 2 3 4 \"G u H\" \"U\" A p t \"T\" \"d\" \"c\" 1 r \"a\" \"l\" \"o\" \"q\" \"s\" \"x\" \"y\""

/-- The record `parse_log_line` yields on `lineW`. -/
def recW : LogRecord :=
  ⟨"h", "2020-01-02T03:04:05.6Z", "e", "a", "1", "b", "2", "0", "0", "0",
   "2", "2", "3", "4", "G", "u", "H", "U", "A", "p", "t", "T", "d", "c",
   "1", "r", "a", "l", "o", "q", "s", "x", "y"⟩

/-- `recW` with its timestamp rewritten to whole seconds. -/
def recAdjW : LogRecord := { recW with timestamp := "2020-01-02T03:04:05Z" }

/-- The original fractional timestamp of `lineW` as a datetime. -/
def tsW : DateTime := ⟨2020, 1, 2, 3, 4, 5, 600000⟩

/-- The high-water-mark the `s3W` run determines (midnight of the earliest
object's date). -/
def hwmW : DateTime := ⟨2020, 1, 2, 0, 0, 0, 0⟩

/-- A high-water-mark equal to `tsW` truncated to whole seconds: it
straddles `tsW` and its truncation. -/
def hwmS : DateTime := ⟨2020, 1, 2, 3, 4, 5, 0⟩

/-- One log object whose single line matches the grammar. -/
def s3W : List S3Object := [⟨"a/b/c/d/L/2020/01/02/f", 1, [lineW]⟩]

/-- One log object whose single line does not match the grammar. -/
def s3Junk : List S3Object := [⟨"a/b/c/d/L/2020/01/02/f", 1, ["junk"]⟩]

/-- Two log objects in different month partitions: 2023/03 (earliest) and
2024/05 (the wall-clock month of `nowW`). -/
def s3Six : List S3Object :=
  [⟨"a/b/c/d/L/2023/03/15/f", 1, [lineB]⟩,
   ⟨"a/b/c/d/L/2024/05/20/g", 2, [lineC]⟩]

/-- A cluster that already has an index starting with `"idx"`. -/
def esCex : List EsIndexEntry :=
  [⟨"idx-2020.01.01", [[("timestamp", "2020-01-01T00:00:00Z")]]⟩]

/-- A cluster whose index holds exactly one document of the shape this
pipeline writes (`recAdjW.toDoc`, flat fields, whole-second timestamp). -/
def esC3 : List EsIndexEntry := [⟨"alb-logs", [recAdjW.toDoc]⟩]

/-- The world after the `s3Junk` run: the dated index was created, no bulk
call was made. -/
def wJunkAfter : EsWorld := ⟨[⟨"idx-2020.01.02-2024.05.20", []⟩], []⟩

/-- A source IpSet living in scope CLOUDFRONT of region r1. -/
def srcSet : IPSet := ⟨"S", "sid", ["1.2.3.4/32"], "IPV4", 7, "d"⟩

/-- WAF world for the CLOUDFRONT-to-CLOUDFRONT copy: the source set exists,
the destination region is empty, no faults. -/
def wCf : WafWorld := ⟨[(("r1", "CLOUDFRONT"), [srcSet])], 0, 50, [], []⟩

/-- Two source sets for the batch-copy runs. -/
def setA : IPSet := ⟨"A", "idA", ["10.0.0.1/32"], "IPV4", 1, ""⟩

/-- Second source set. -/
def setB : IPSet := ⟨"B", "idB", ["10.0.0.2/32"], "IPV4", 2, ""⟩

/-- WAF world whose fault schedule fails the second API call (the detail
read of set A) of a `copy_all_ip_sets` run. -/
def wFault : WafWorld :=
  ⟨[(("r1", "REGIONAL"), [setA, setB])], 0, 100, [false, true], []⟩

/-- `wFault` right after the successful source list call. -/
def wAfterL : WafWorld :=
  ⟨[(("r1", "REGIONAL"), [setA, setB])], 0, 100, [true],
   [.list "r1" "REGIONAL"]⟩

/-- The world at which the faulted detail read aborted the loop. -/
def wErrL : WafWorld :=
  ⟨[(("r1", "REGIONAL"), [setA, setB])], 0, 100, [],
   [.list "r1" "REGIONAL", .get "r1" "REGIONAL" "A" "idA"]⟩

/-- Rule sets for the `findByName` witness. -/
def allowA : IPSet := ⟨"allow-a", "ida", ["10.0.0.0/8"], "IPV4", 1, ""⟩

/-- Second rule set for the `findByName` witness. -/
def allowB : IPSet := ⟨"allow-b", "idb", ["10.1.0.0/16"], "IPV4", 2, ""⟩

/-! ### The claims -/

/-- C7: for every raw input line, `parse_log_line` returns empty (not an
error) when the line does not match the fixed field grammar, and such a
line is excluded from the output batch without aborting the processing of
the remaining lines or the batch: the loop step returns the accumulator
unchanged and the run continues on the rest. -/
theorem c7_theorem (h : Option DateTime) (l : String)
    (hnp : parse_log_line l = none) :
    keepLine h l = .ok none ∧
      ∀ (i : String) (ls : List String) (acc : List Action),
        buildActionsGo i h (l :: ls) acc = buildActionsGo i h ls acc := by
  have hk : keepLine h l = .ok none := by simp [keepLine, hnp]
  exact ⟨hk, fun i ls acc => by simp [buildActionsGo, hk]⟩

/-- Witness for C7 at the non-matching line `"x"`. -/
theorem c7_witness :
    parse_log_line "x" = none ∧
      (keepLine none "x" = .ok none ∧
        ∀ (i : String) (ls : List String) (acc : List Action),
          buildActionsGo i none ("x" :: ls) acc = buildActionsGo i none ls acc) :=
  ⟨rfl, c7_theorem none "x" rfl⟩

/-- C8: `findByName` (the list-and-scan idiom of copyipset.py:10-23 and
copyallipset.py:16-22) returns the id, addresses and address family of the
first rule set whose name equals the requested name — Python string
equality, hence exact and case-sensitive — and returns empty when no rule
set's name matches. -/
theorem c8_theorem :
    (∀ (sets : List IPSet) (n : String),
        (∀ st ∈ sets, st.name ≠ n) → findByName sets n = none) ∧
      (∀ (p : List IPSet) (x : IPSet) (q : List IPSet) (n : String),
        (∀ st ∈ p, st.name ≠ n) → x.name = n →
          findByName (p ++ x :: q) n =
            some (x.id, x.addresses, x.ipAddressVersion)) := by
  constructor
  · intro sets n hnone
    unfold findByName
    rw [List.find?_eq_none.mpr (fun st hst => by simp [hnone st hst])]
  · intro p
    induction p with
    | nil =>
      intro x q n _ hx
      unfold findByName
      simp [List.find?_cons, hx]
    | cons a p ih =>
      intro x q n hp hx
      have ha : a.name ≠ n := hp a (by simp)
      have := ih x q n (fun st hst => hp st (by simp [hst])) hx
      unfold findByName at this ⊢
      simpa [List.find?_cons, ha] using this

/-- Witness for C8 on the scope `[allow-a, allow-b]`: searching `allow-b`
finds it, `allow-c` finds nothing, and the differently-cased `Allow-b`
finds nothing either. -/
theorem c8_witness :
    findByName [allowA, allowB] "allow-b" =
        some ("idb", ["10.1.0.0/16"], "IPV4") ∧
      findByName [allowA, allowB] "allow-c" = none ∧
      findByName [allowA, allowB] "Allow-b" = none :=
  ⟨c8_theorem.2 [allowA] allowB [] "allow-b" (by decide) rfl,
   c8_theorem.1 [allowA, allowB] "allow-c" (by decide),
   c8_theorem.1 [allowA, allowB] "Allow-b" (by decide)⟩

/-- C4 (amended): in `copy_all_ip_sets` a failure while replicating one
rule set is not caught anywhere: it propagates out of the loop at once, so
the run aborts with that error and the remaining rule sets are never
attempted. -/
theorem c4_theorem (sr dr ss ds : String) (s : IPSet) (rest : List IPSet)
    (w w1 : WafWorld) (e : PyErr)
    (hs : processSourceSet sr dr ss ds s w = (.error e, w1)) :
    copyAllLoop sr dr ss ds (s :: rest) w = (.error e, w1) := by
  simp [copyAllLoop, hs]

/-- Witness for C4: the run whose detail read of set A fails aborts there,
with set B still pending. -/
theorem c4_witness :
    copyAllLoop "r1" "r2" "REGIONAL" "REGIONAL" [setA, setB] wAfterL =
      (.error .serviceError, wErrL) :=
  c4_theorem "r1" "r2" "REGIONAL" "REGIONAL" setA [setB] wAfterL wErrL
    .serviceError rfl

/-- C4 counterexample: with two source sets and a service failure while
replicating the first, `copy_all_ip_sets` raises instead of reporting the
failure individually, makes no further API call (the event log stops at the
failed read of set A — set B is never attempted), and leaves the
destination scope empty. -/
theorem c4_counterexample :
    (copy_all_ip_sets "r1" "r2" "REGIONAL" "REGIONAL" wFault).1 =
        .error .serviceError ∧
      (copy_all_ip_sets "r1" "r2" "REGIONAL" "REGIONAL" wFault).2.events =
        [.list "r1" "REGIONAL", .get "r1" "REGIONAL" "A" "idA"] ∧
      scopeSets (copy_all_ip_sets "r1" "r2" "REGIONAL" "REGIONAL" wFault).2
        "r2" "REGIONAL" = [] :=
  ⟨rfl, rfl, rfl⟩

/-- C2 at the failing input ds = 'CLOUDFRONT' (the lock-token read of
copyipset.py:45 hardcodes Scope='REGIONAL'): the source set resolves, yet
the run raises WAFNonexistentItemException at the token read and leaves the
destination set with an empty address list — not equal to the source's
non-empty one. -/
theorem c2_theorem :
    (copy_ip_set "r1" "r2" "S" "S" "CLOUDFRONT" "CLOUDFRONT" wCf).1 =
        .error .wafNonexistentItem ∧
      ((scopeSets (copy_ip_set "r1" "r2" "S" "S" "CLOUDFRONT" "CLOUDFRONT"
          wCf).2 "r2" "CLOUDFRONT").map (fun st => st.addresses)) = [[]] ∧
      ((scopeSets wCf "r1" "CLOUDFRONT").map (fun st => st.addresses)) =
        [["1.2.3.4/32"]] :=
  ⟨rfl, rfl, rfl⟩

/-- C9 at the failing input ds = 'CLOUDFRONT': the event log of the run
shows the lock-token read (the `get` after `create`) addressed to scope
'REGIONAL', not to the destination scope given as argument. -/
theorem c9_theorem :
    (copy_ip_set "r1" "r2" "S" "S" "CLOUDFRONT" "CLOUDFRONT" wCf).2.events =
        [.list "r1" "CLOUDFRONT", .get "r1" "CLOUDFRONT" "S" "sid",
         .list "r2" "CLOUDFRONT", .create "r2" "CLOUDFRONT" "S",
         .get "r2" "REGIONAL" "S" "id-0"] ∧
      ("REGIONAL" : String) ≠ "CLOUDFRONT" :=
  ⟨rfl, by decide⟩

/-- C3 at a failing input: an index holding exactly one document written by
this pipeline (flat fields, whole-second timestamp).  The search itself
returns that document — filtered to its timestamp field — yet
`get_last_log_time` returns `None`, because it reads
`_source['log']['timestamp']` and the `KeyError` is swallowed. -/
theorem c3_theorem :
    esSearchTopTs esC3 "alb-logs" =
        .ok (some [("timestamp", "2020-01-02T03:04:05Z")]) ∧
      get_last_log_time esC3 "alb-logs" = none :=
  ⟨rfl, rfl⟩

/-- C10: every action in the accumulated batch comes from a parsed record
and equals it on every field except the timestamp, which is rewritten from
the fractional form (`'%Y-%m-%dT%H:%M:%S.%fZ'`) to the whole-second form
(`'%Y-%m-%dT%H:%M:%SZ'`) — a rendering that never consults the microsecond
field — while the high-water-mark comparison deciding inclusion is made on
the original fractional datetime `t`, not on its truncation. -/
theorem c10_theorem (i : String) (h : Option DateTime) (ls : List String)
    (B : List Action) (hB : buildActions i h ls = .ok B) :
    ∀ a ∈ B, ∃ l ∈ ls, ∃ r t, parse_log_line l = some r ∧
      strptimeFracZ r.timestamp = .ok t ∧
      a = (i, { r with timestamp := strftimeWholeZ t }) ∧
      strftimeWholeZ t = strftimeWholeZ { t with microsecond := 0 } ∧
      (∀ hw, h = some hw → dtLt hw t = true) := by
  intro a ha
  rcases (mem_buildActions i h ls B hB a).mp ha with ⟨l, hl, hkeep, hi⟩
  rcases (keepLine_ok_some h l a.2).mp hkeep with ⟨r, t, hp, hf, hcmp, hadj⟩
  refine ⟨l, hl, r, t, hp, hf, ?_, rfl, ?_⟩
  · rcases a with ⟨a1, a2⟩
    cases hi
    cases hadj
    rfl
  · intro hw hhw
    subst hhw
    exact hcmp

/-- Witness for C10: the high-water-mark `hwmS` equals the whole-second
truncation of `lineW`'s timestamp `tsW`; the record is nevertheless kept —
the comparison is on the fractional value (`hwmS < tsW`), and
`dtLt hwmS hwmS = false` shows the truncated timestamp would not have
passed the strict filter. -/
theorem c10_witness :
    buildActions "idx" (some hwmS) [lineW] = .ok [("idx", recAdjW)] ∧
      (∃ l ∈ [lineW], ∃ r t, parse_log_line l = some r ∧
        strptimeFracZ r.timestamp = .ok t ∧
        (("idx", recAdjW) : Action) =
          ("idx", { r with timestamp := strftimeWholeZ t }) ∧
        strftimeWholeZ t = strftimeWholeZ { t with microsecond := 0 } ∧
        (∀ hw, (some hwmS : Option DateTime) = some hw → dtLt hw t = true)) ∧
      dtLt hwmS hwmS = false :=
  ⟨rfl,
   c10_theorem "idx" (some hwmS) [lineW] [("idx", recAdjW)] rfl
     ("idx", recAdjW) (List.mem_singleton.mpr rfl),
   rfl⟩

/-- C5 (amended): every completed `get_alb_logs` run returns Python `None`
— the function body has no return statement, so no count is returned — and
a bulk write happens only for a nonempty batch: either no bulk call is made
at all, or one bulk call with a nonempty action list. -/
theorem c5_theorem (now : DateTime) (s3 : List S3Object)
    (basePre logPathPre i : String) (w : EsWorld) (res : Option Nat)
    (w' : EsWorld)
    (hrun : get_alb_logs now s3 basePre logPathPre i w = (.ok res, w')) :
    res = none ∧
      (w'.bulks = w.bulks ∨
        ∃ acts, acts ≠ [] ∧ w'.bulks = w.bulks ++ [acts]) := by
  unfold get_alb_logs at hrun
  split at hrun
  · simp at hrun
  · simp at hrun
  · next llt es2 heq =>
    split at hrun
    · simp at hrun
    · next actions hba =>
      split at hrun
      · injection hrun with h1 h2
        injection h1 with h1
        exact ⟨h1.symm, .inl (by rw [← h2])⟩
      · next hemp =>
        injection hrun with h1 h2
        injection h1 with h1
        refine ⟨h1.symm, .inr ⟨actions, ?_, by rw [← h2]⟩⟩
        intro hae
        exact hemp (by simp [hae])

/-- C5 counterexample: the `s3W` run completes, makes exactly one bulk call
with one record, and still returns `None` — not the number of records
written. -/
theorem c5_counterexample :
    (get_alb_logs nowW s3W "a/b/c/d" "L" "idx" ⟨[], []⟩).1 = .ok none ∧
      ((get_alb_logs nowW s3W "a/b/c/d" "L" "idx" ⟨[], []⟩).2.bulks.map
        (fun b => b.length)) = [1] ∧
      (Except.ok none : Except PyErr (Option Nat)) ≠ .ok (some 1) :=
  ⟨rfl, rfl, by simp⟩

/-- Witness for C5 at the `s3Junk` run: the single line fails to parse, the
batch stays empty, the run completes with `None` and makes no bulk call. -/
theorem c5_witness :
    get_alb_logs nowW s3Junk "a/b/c/d" "L" "idx" ⟨[], []⟩ =
        (.ok none, wJunkAfter) ∧
      (wJunkAfter.bulks = (⟨[], []⟩ : EsWorld).bulks ∨
        ∃ acts, acts ≠ [] ∧
          wJunkAfter.bulks = (⟨[], []⟩ : EsWorld).bulks ++ [acts]) :=
  ⟨rfl,
   (c5_theorem nowW s3Junk "a/b/c/d" "L" "idx" ⟨[], []⟩ none wJunkAfter rfl).2⟩

/-- C6 at a failing input (the script's own docstring says it processes the
current month's logs by default): the wall clock `nowW` is May 2024, yet
the enumerated prefix is built from the determined last-log time
(2023-03-15, the earliest object's date), so only the 2023/03 partition is
read; the object sitting under the wall-clock month's partition
(`a/b/c/d/L/2024/05/`) holds a record matching the grammar, and nothing of
it is submitted — the single submitted record is the 2023 one. -/
theorem c6_theorem :
    nowW.year = 2024 ∧ nowW.month = 5 ∧
      (determineLastLogTime nowW s3Six "a/b/c/d" "L" "idx" []).1 =
        .ok (some ⟨2023, 3, 15, 0, 0, 0, 0⟩) ∧
      monthPrefixOf "a/b/c/d" "L" ⟨2023, 3, 15, 0, 0, 0, 0⟩ =
        "a/b/c/d/L/2023/03/" ∧
      monthPrefixOf "a/b/c/d" "L" nowW = "a/b/c/d/L/2024/05/" ∧
      (get_alb_logs nowW s3Six "a/b/c/d" "L" "idx" ⟨[], []⟩).1 = .ok none ∧
      ((get_alb_logs nowW s3Six "a/b/c/d" "L" "idx" ⟨[], []⟩).2.bulks.map
          (fun b => b.map (fun a => (a.1, a.2.timestamp)))) =
        [[("idx", "2023-03-20T00:00:00Z")]] ∧
      (parse_log_line lineC).isSome = true ∧
      strStartsWith "a/b/c/d/L/2024/05/20/g" "a/b/c/d/L/2024/05/" = true :=
  ⟨rfl, rfl, rfl, rfl, rfl, rfl, rfl, rfl, rfl⟩

/-- C1 (amended).  First part: with a determined high-water-mark `hw`, an
action is in the accumulated batch exactly when some enumerated line parses
to a record whose fractional timestamp is strictly greater than `hw` (in
particular no record with timestamp ≤ `hw` is ever in the batch).  Second
part: when no high-water-mark was determined, the run raises
`AttributeError` (on `last_log_time.year`) before enumerating anything and
submits nothing.  Third part: every completed run did determine a
high-water-mark, and its submitted bulk batch is exactly the batch
accumulated under that mark (absent when empty). -/
theorem c1_theorem :
    (∀ (i : String) (hw : DateTime) (ls : List String) (B : List Action),
        buildActions i (some hw) ls = .ok B →
        ∀ a : Action, a ∈ B ↔ ∃ l ∈ ls, ∃ r t, parse_log_line l = some r ∧
          strptimeFracZ r.timestamp = .ok t ∧ dtLt hw t = true ∧
          a = (i, { r with timestamp := strftimeWholeZ t })) ∧
      (∀ (now : DateTime) (s3 : List S3Object)
          (basePre logPathPre i : String) (w : EsWorld)
          (res : Except PyErr (Option Nat)) (w' : EsWorld),
        (determineLastLogTime now s3 basePre logPathPre i w.es).1 = .ok none →
        get_alb_logs now s3 basePre logPathPre i w = (res, w') →
        res = .error .attributeError ∧ w'.bulks = w.bulks) ∧
      (∀ (now : DateTime) (s3 : List S3Object)
          (basePre logPathPre i : String) (w : EsWorld) (res : Option Nat)
          (w' : EsWorld),
        get_alb_logs now s3 basePre logPathPre i w = (.ok res, w') →
        ∃ hw es2 B,
          determineLastLogTime now s3 basePre logPathPre i w.es =
              (.ok (some hw), es2) ∧
            buildActions i (some hw)
              (monthLines s3 (monthPrefixOf basePre logPathPre hw)) = .ok B ∧
            ((B = [] ∧ w'.bulks = w.bulks) ∨ w'.bulks = w.bulks ++ [B])) := by
  refine ⟨?_, ?_, ?_⟩
  · intro i hw ls B hB a
    rw [mem_buildActions i (some hw) ls B hB a]
    constructor
    · rintro ⟨l, hl, hkeep, hi⟩
      rcases (keepLine_ok_some (some hw) l a.2).mp hkeep with
        ⟨r, t, hp, hf, hcmp, hadj⟩
      refine ⟨l, hl, r, t, hp, hf, hcmp, ?_⟩
      rcases a with ⟨a1, a2⟩
      cases hi
      cases hadj
      rfl
    · rintro ⟨l, hl, r, t, hp, hf, hcmp, ha⟩
      refine ⟨l, hl, ?_, by rw [ha]⟩
      rw [keepLine_ok_some (some hw) l a.2]
      exact ⟨r, t, hp, hf, hcmp, by rw [ha]⟩
  · intro now s3 basePre logPathPre i w res w' hdet hrun
    unfold get_alb_logs at hrun
    split at hrun
    · next e es2 heq => rw [heq] at hdet; simp at hdet
    · injection hrun with h1 h2
      exact ⟨h1.symm, by rw [← h2]⟩
    · next llt es2 heq => rw [heq] at hdet; simp at hdet
  · intro now s3 basePre logPathPre i w res w' hrun
    unfold get_alb_logs at hrun
    split at hrun
    · simp at hrun
    · simp at hrun
    · next llt es2 heq =>
      split at hrun
      · simp at hrun
      · next actions hba =>
        split at hrun
        · next hemp =>
          injection hrun with h1 h2
          exact ⟨llt, es2, actions, heq, hba,
            .inl ⟨List.isEmpty_iff.mp hemp, by rw [← h2]⟩⟩
        · injection hrun with h1 h2
          exact ⟨llt, es2, actions, heq, hba, .inr (by rw [← h2])⟩

/-- C1 counterexample: a run in which no high-water-mark is determined (an
index starting with the index name exists, and `get_last_log_time` comes
back empty) while the source holds a line matching the grammar: the run
aborts with `AttributeError` and makes no bulk call, so the parsed record
is not included in any submitted batch. -/
theorem c1_counterexample :
    (determineLastLogTime nowW s3Six "a/b/c/d" "L" "idx" esCex).1 =
        .ok none ∧
      (parse_log_line lineB).isSome = true ∧
      (get_alb_logs nowW s3Six "a/b/c/d" "L" "idx" ⟨esCex, []⟩).1 =
        .error .attributeError ∧
      (get_alb_logs nowW s3Six "a/b/c/d" "L" "idx" ⟨esCex, []⟩).2.bulks = [] :=
  ⟨rfl, rfl, rfl, rfl⟩

/-- Witness for C1: (1) the membership equivalence instantiated on the
`lineW` batch under the mark `hwmW`, with the surviving record exhibited;
(2) the abort conclusion at the `esCex` world; (3) the completed-run
structure of the `s3W` run. -/
theorem c1_witness :
    (("idx", recAdjW) : Action) ∈ [(("idx" : String), recAdjW)] ∧
      (get_alb_logs nowW s3Six "a/b/c/d" "L" "idx" ⟨esCex, []⟩).1 =
        .error .attributeError ∧
      (∃ hw es2 B,
        determineLastLogTime nowW s3W "a/b/c/d" "L" "idx"
            (⟨[], []⟩ : EsWorld).es = (.ok (some hw), es2) ∧
          buildActions "idx" (some hw)
            (monthLines s3W (monthPrefixOf "a/b/c/d" "L" hw)) = .ok B ∧
          ((B = [] ∧
              (get_alb_logs nowW s3W "a/b/c/d" "L" "idx" ⟨[], []⟩).2.bulks =
                (⟨[], []⟩ : EsWorld).bulks) ∨
            (get_alb_logs nowW s3W "a/b/c/d" "L" "idx" ⟨[], []⟩).2.bulks =
              (⟨[], []⟩ : EsWorld).bulks ++ [B])) := by
  refine ⟨?_, ?_, ?_⟩
  · exact (c1_theorem.1 "idx" hwmW [lineW] [("idx", recAdjW)] rfl
      ("idx", recAdjW)).mpr
      ⟨lineW, List.mem_singleton.mpr rfl, recW, tsW, rfl, rfl, rfl, rfl⟩
  · exact (c1_theorem.2.1 nowW s3Six "a/b/c/d" "L" "idx" ⟨esCex, []⟩
      (get_alb_logs nowW s3Six "a/b/c/d" "L" "idx" ⟨esCex, []⟩).1
      (get_alb_logs nowW s3Six "a/b/c/d" "L" "idx" ⟨esCex, []⟩).2
      rfl rfl).1
  · exact c1_theorem.2.2 nowW s3W "a/b/c/d" "L" "idx" ⟨[], []⟩ none
      (get_alb_logs nowW s3W "a/b/c/d" "L" "idx" ⟨[], []⟩).2 rfl

end OpsToolbox
